import Mathlib

/-!
Verification development for the website-analysis core of the portal
repository (server/websiteAnalysisService.ts and its storage collaborator).

The TypeScript source is shallowly embedded: pure helpers become Lean
functions on strings / character lists; the network (fetch body streaming,
DNS resolution), the cheerio HTML library, the WHATWG URL resolver used for
link discovery, and the OpenAI synthesizer are external collaborators and
are modelled as explicit oracle parameters; the per-tenant database rows
(website_analysis, analyzed_pages) become an explicit state record threaded
through the orchestrator functions.
-/

/-! ## HostPolicy: WebsiteAnalysisService.isPrivateIP -/

/-- Decimal digit test, the model of the regex class d (ASCII 0-9 only). -/
def isDigitChar (c : Char) : Bool :=
  c == '0' || c == '1' || c == '2' || c == '3' || c == '4' ||
  c == '5' || c == '6' || c == '7' || c == '8' || c == '9'

/-- Split a character list on the dot character; model of the grouping
performed by the anchored IPv4 regex (and of String.split on dots). -/
def splitOnDot : List Char → List (List Char)
  | [] => [[]]
  | c :: rest =>
    if c = '.' then [] :: splitOnDot rest
    else
      match splitOnDot rest with
      | [] => [[c]]
      | g :: gs => (c :: g) :: gs

/-- One regex group: between one and three decimal digits. -/
def isOctet (cs : List Char) : Bool :=
  decide (1 ≤ cs.length) && decide (cs.length ≤ 3) && cs.all isDigitChar

/-- Numeric value of a decimal digit string, as JavaScript Number would
produce for a short digit-only component. -/
def digitsVal (cs : List Char) : Nat :=
  cs.foldl (fun n c => n * 10 + (c.toNat - 48)) 0

/-- The IPv4 range test of isPrivateIP: octets above 255 are blocked, and
so are 0/8, 10/8, 127/8, 172.16/12, 192.168/16, 169.254/16, the three
documentation ranges, and everything from 224.0.0.0 upwards. -/
def ipv4Blocked (a b c d : Nat) : Bool :=
  decide (a > 255 ∨ b > 255 ∨ c > 255 ∨ d > 255) ||
  decide (a = 0 ∨ a = 10 ∨ a = 127 ∨
    (a = 172 ∧ 16 ≤ b ∧ b ≤ 31) ∨ (a = 192 ∧ b = 168) ∨ (a = 169 ∧ b = 254) ∨
    (a = 192 ∧ b = 0 ∧ c = 2) ∨ (a = 198 ∧ b = 51 ∧ c = 100) ∨
    (a = 203 ∧ b = 0 ∧ c = 113) ∨ 224 ≤ a)

/-- Boolean test that a list starts with the given pattern. -/
def startsWithChars (pat cs : List Char) : Bool :=
  match pat, cs with
  | [], _ => true
  | _ :: _, [] => false
  | p :: ps, c :: rest => p == c && startsWithChars ps rest

/-- The IPv6 branch of isPrivateIP: after lower-casing, loopback,
IPv4-mapped, link-local, unique-local (fc/fd), multicast (ff), and the
unspecified address are blocked. -/
def ipv6Special (cs : List Char) : Bool :=
  let l := cs.map Char.toLower
  l == [':', ':', '1'] ||
  startsWithChars [':', ':', 'f', 'f', 'f', 'f', ':'] l ||
  startsWithChars ['f', 'e', '8', '0', ':'] l ||
  startsWithChars ['f', 'c'] l ||
  startsWithChars ['f', 'd'] l ||
  startsWithChars ['f', 'f'] l ||
  l == [':', ':']

/-- Does the character list match the anchored IPv4 regex of isPrivateIP:
exactly four dot-separated groups of one to three digits. -/
def matchesIPv4Quad (cs : List Char) : Bool :=
  match splitOnDot cs with
  | [sa, sb, sc, sd] => isOctet sa && isOctet sb && isOctet sc && isOctet sd
  | _ => false

/-- The IPv4 half of isPrivateIP: if the regex matches, classify the four
numeric components with ipv4Blocked; otherwise this half contributes
nothing. -/
def ipv4Part (cs : List Char) : Bool :=
  match splitOnDot cs with
  | [sa, sb, sc, sd] =>
    if isOctet sa && isOctet sb && isOctet sc && isOctet sd then
      ipv4Blocked (digitsVal sa) (digitsVal sb) (digitsVal sc) (digitsVal sd)
    else false
  | _ => false

/-- Model of WebsiteAnalysisService.isPrivateIP on character lists: the
IPv4 branch returns true only for blocked quads, and every input that does
not return there is checked against the IPv6 special forms. -/
def isPrivateIPChars (cs : List Char) : Bool :=
  ipv4Part cs || ipv6Special cs

/-- Model of WebsiteAnalysisService.isPrivateIP (string level). -/
def isPrivateIP (ip : String) : Bool :=
  isPrivateIPChars ip.data

/-! ## UrlGuard: WebsiteAnalysisService.validateUrl

The hostname checks and control flow of validateUrl are embedded directly.
Its two external collaborators are modelled explicitly: the WHATWG URL
constructor (a Node built-in) as a parsing function faithful to the URL
standard on http/https inputs, and the system DNS resolver as a pair of
oracle functions for A and AAAA lookups whose failures surface as empty
lists, matching the catch handlers that turn rejections into empty arrays.
-/

/-- Does one list contain another as a contiguous substring; model of the
JavaScript String.includes used for the metadata hostname check. -/
def containsSub (pat : List Char) : List Char → Bool
  | [] => startsWithChars pat []
  | c :: rest => startsWithChars pat (c :: rest) || containsSub pat rest

/-- ASCII lower-casing of a string, the model of toLowerCase on hostnames
(hostnames emitted by the URL parser are ASCII). -/
def toLowerStr (s : String) : String :=
  ⟨s.data.map Char.toLower⟩

/-- A parsed URL as validateUrl consumes it: the protocol (with trailing
colon) and the hostname exactly as the WHATWG hostname getter serializes
it (IPv6 literals keep their brackets). -/
structure ParsedUrl where
  protocol : String
  hostname : String
  deriving Repr, DecidableEq

/-- Characters that end the authority section of an http(s) URL. -/
def isAuthorityEnd (c : Char) : Bool :=
  c == '/' || c == '?' || c == '#' || c == '\\'

/-- Code points the URL standard forbids inside a (non-bracketed) host;
a host containing one of them fails to parse. The space character is the
one that matters for the inputs below. -/
def isForbiddenHostChar (c : Char) : Bool :=
  c == ' ' || c == '#' || c == '/' || c == ':' || c == '?' || c == '@' ||
  c == '[' || c == ']' || c == '\\' || c == '^' || c == '|' ||
  c == '<' || c == '>' || c == '"' ||
  c == '\t' || c == '\n' || c == '\r' || c.toNat == 0

/-- The part of the authority after its last at-sign (userinfo stripped). -/
def afterLastAt (cs : List Char) : List Char :=
  ((cs.reverse.takeWhile (fun c => ¬(c == '@'))).reverse)

/-- Split a host-and-port list at the first colon, validating the port:
empty or all-digit ports are accepted (an empty port is simply dropped, as
in the URL standard), anything else is a parse failure. Returns the host
part on success. -/
def splitHostPort (cs : List Char) : Option (List Char) :=
  let host := cs.takeWhile (fun c => ¬(c == ':'))
  let rest := cs.drop host.length
  match rest with
  | [] => some host
  | _ :: port =>
    if port.all isDigitChar ∧ digitsVal port ≤ 65535 then some host else none

/-- Parse the host portion of the authority: bracketed IPv6 literals are
kept with their brackets (as the hostname getter serializes them), other
hosts must be nonempty and free of forbidden host code points, and are
ASCII lower-cased as domain parsing does. -/
def parseHost (cs : List Char) : Option (List Char) :=
  match cs with
  | '[' :: rest =>
    let inner := rest.takeWhile (fun c => ¬(c == ']'))
    let after := rest.drop inner.length
    match after with
    | [] => none
    | _ :: tail =>
      match tail with
      | [] => some ('[' :: inner ++ [']'])
      | ':' :: port =>
        if port.all isDigitChar ∧ digitsVal port ≤ 65535 then
          some ('[' :: inner ++ [']'])
        else none
      | _ => none
  | _ =>
    match splitHostPort cs with
    | none => none
    | some host =>
      if host.isEmpty then none
      else if host.any isForbiddenHostChar then none
      else some (host.map Char.toLower)

/-- The character sequence of the http scheme prefix. -/
def httpPre : List Char := ['h', 't', 't', 'p', ':', '/', '/']

/-- The character sequence of the https scheme prefix. -/
def httpsPre : List Char := ['h', 't', 't', 'p', 's', ':', '/', '/']

/-- Authority extraction and host parsing for a fixed recognized scheme:
the authority runs to the first slash, question mark, hash or backslash,
userinfo is dropped at the last at-sign, and the host is validated. -/
def parseWithProto (p : String) (rest : List Char) : Option ParsedUrl :=
  let authority := rest.takeWhile (fun c => ¬ isAuthorityEnd c)
  (parseHost (afterLastAt authority)).map
    (fun host => { protocol := p, hostname := ⟨host⟩ })

/-- Model of the WHATWG URL constructor (Node's new URL) restricted to
absolute http/https URLs, which is the only shape validateUrl ever hands
it: the scheme is read off the prefix and the rest is parsed by
parseWithProto. -/
def parseHttpUrl (s : String) : Option ParsedUrl :=
  if startsWithChars httpPre s.data then parseWithProto "http:" (s.data.drop 7)
  else if startsWithChars httpsPre s.data then
    parseWithProto "https:" (s.data.drop 8)
  else none

/-- The scheme-prepending step of validateUrl: a URL that does not start
with http:// or https:// gets https:// prepended. -/
def ensureScheme (url : String) : String :=
  if startsWithChars httpPre url.data || startsWithChars httpsPre url.data then url
  else ⟨httpsPre ++ url.data⟩

/-- Strip one leading open bracket and one trailing close bracket from a
hostname, the model of the bracket-stripping replace in validateUrl. -/
def stripBrackets (h : String) : String :=
  let cs := h.data
  let cs1 := if cs.head? = some '[' then cs.tail else cs
  let cs2 := if cs1.getLast? = some ']' then cs1.dropLast else cs1
  ⟨cs2⟩

instance {e a : Type} [DecidableEq e] [DecidableEq a] :
    DecidableEq (Except e a) := fun x y =>
  match x, y with
  | .error u, .error v =>
    if h : u = v then .isTrue (by rw [h]) else .isFalse (by simp [h])
  | .error _, .ok _ => .isFalse (by simp)
  | .ok _, .error _ => .isFalse (by simp)
  | .ok u, .ok v =>
    if h : u = v then .isTrue (by rw [h]) else .isFalse (by simp [h])

/-- Error outcomes of validateUrl, one constructor per throw site, named
by the taxonomy of the specification. -/
inductive UrlError where
  | invalidUrl
  | disallowedProtocol
  | blockedHost
  | unresolvableHost
  | dnsRebindingBlocked
  deriving Repr, DecidableEq

/-- Model of WebsiteAnalysisService.validateUrl. The dns4 and dns6 oracles
stand for dns.resolve4 and dns.resolve6 with their catch handlers folded
in: a lookup failure is an empty list. Checks run in source order: scheme
prepending, parsing, protocol allow-list, localhost and metadata hostname
blocks, the literal-IP check with bracket stripping, then DNS resolution
with HostPolicy applied to every resolved address. -/
def validateUrl (dns4 dns6 : String → List String) (url : String) :
    Except UrlError ParsedUrl :=
  let url1 := ensureScheme url
  match parseHttpUrl url1 with
  | none => .error .invalidUrl
  | some u =>
    if u.protocol ≠ "http:" ∧ u.protocol ≠ "https:" then
      .error .disallowedProtocol
    else
      let hostname := toLowerStr u.hostname
      if hostname = "localhost" then .error .blockedHost
      else if containsSub "metadata".data hostname.data then .error .blockedHost
      else if (isPrivateIP hostname || hostname.data.any (fun c => c == ':')) &&
              isPrivateIP (stripBrackets hostname) then
        .error .blockedHost
      else
        let allAddresses := dns4 hostname ++ dns6 hostname
        if allAddresses.isEmpty then .error .unresolvableHost
        else if allAddresses.any isPrivateIP then .error .dnsRebindingBlocked
        else .ok u

def noDns : String → List String := fun _ => []

/-! ## BoundedFetcher: the fetch phases of scrapeWebsite and fetchPageHtml

The network is modelled by an HttpResponse value: the status, the two
headers the code reads, whether a body stream is available, and the body
as the list of chunks the stream reader would deliver (each chunk a list
of bytes). Timeouts are real-time behavior and are outside this model;
every other check of the two fetch paths is embedded in source order.
-/

/-- Error outcomes of the two fetch paths, one constructor per throw
site, named by the taxonomy of the specification. -/
inductive FetchError where
  | redirectRejected
  | httpError (status : Nat)
  | unexpectedContentType
  | contentTooLarge
  | sizeLimitExceeded
  | noBody
  deriving Repr, DecidableEq

/-- An HTTP response as the fetch code observes it. -/
structure HttpResponse where
  status : Nat
  contentType : Option String
  contentLength : Option Nat
  hasBody : Bool
  chunks : List (List Nat)
  deriving Repr, DecidableEq

/-- The 5 MiB cap of scrapeWebsite (MAX_SIZE in the source). -/
def maxScrapeBytes : Nat := 5 * 1024 * 1024

/-- The 500000-character truncation applied by fetchPageHtml after it has
buffered the whole body. -/
def htmlCharLimit : Nat := 500000

/-- Total number of body bytes across all chunks. -/
def totalBytes (chunks : List (List Nat)) : Nat :=
  (chunks.map List.length).sum

/-- The streaming read loop of scrapeWebsite: chunks are consumed in
order, a running total is kept, and the loop aborts with the streaming
size error as soon as the total exceeds the cap; otherwise all chunks are
collected. -/
def readChunks (maxSize : Nat) (total : Nat) :
    List (List Nat) → Except FetchError (List (List Nat))
  | [] => .ok []
  | c :: rest =>
    let t := total + c.length
    if t > maxSize then .error .sizeLimitExceeded
    else
      match readChunks maxSize t rest with
      | .ok cs => .ok (c :: cs)
      | .error e => .error e

/-- The fetch phase of scrapeWebsite, in source order: manual-redirect
rejection of any 3xx status, non-2xx rejection, the text/html
content-type requirement, the content-length header hint against the
5 MiB cap, the body-availability check, and the streaming read with the
same cap. Returns the buffered body bytes. -/
def scrapeFetchPhase (resp : HttpResponse) : Except FetchError (List Nat) :=
  if 300 ≤ resp.status ∧ resp.status < 400 then .error .redirectRejected
  else if ¬(200 ≤ resp.status ∧ resp.status ≤ 299) then .error (.httpError resp.status)
  else
    match resp.contentType with
    | none => .error .unexpectedContentType
    | some ct =>
      if ¬(containsSub "text/html".data ct.data = true) then .error .unexpectedContentType
      else
        let sized : Except FetchError (List Nat) :=
          if resp.hasBody = false then .error .noBody
          else
            match readChunks maxScrapeBytes 0 resp.chunks with
            | .ok cs => .ok cs.flatten
            | .error e => .error e
        match resp.contentLength with
        | some n => if n > maxScrapeBytes then .error .contentTooLarge else sized
        | none => sized

/-- The fetch phase of fetchPageHtml, in source order: manual-redirect
rejection, non-2xx rejection, then only the content-length header checked
against 5 MiB; the body is buffered whole (response.text) and truncated to
500000 characters. There is no content-type check and no streaming
enforcement on this path. -/
def fetchPageHtmlPhase (resp : HttpResponse) : Except FetchError (List Nat) :=
  if 300 ≤ resp.status ∧ resp.status < 400 then .error .redirectRejected
  else if ¬(200 ≤ resp.status ∧ resp.status ≤ 299) then .error (.httpError resp.status)
  else
    match resp.contentLength with
    | some n =>
      if n > maxScrapeBytes then .error .contentTooLarge
      else .ok (resp.chunks.flatten.take htmlCharLimit)
    | none => .ok (resp.chunks.flatten.take htmlCharLimit)

/-! ## PageDiscovery: WebsiteAnalysisService.findImportantPages

The cheerio anchor extraction and the WHATWG URL resolver are external
collaborators: the anchors argument is the list of href attribute values
of the homepage in document order, parseAbs models new URL on one
argument, and resolveRel models new URL with a base argument. Re-parsing
a serialized absolute URL is the identity in the URL standard, so the
resolved parts stand for both parse steps of the source.
-/

/-- The origin, serialized href and path of a resolved URL, as the three
properties the discovery code reads. -/
structure UrlParts where
  href : String
  origin : String
  pathname : String
  deriving Repr, DecidableEq

/-- The keyword list of findImportantPages. -/
def pageKeywords : List String :=
  ["about", "about-us", "who-we-are", "our-story", "company",
   "contact", "contact-us", "get-in-touch", "reach-us",
   "faq", "faqs", "help", "support",
   "services", "what-we-do",
   "products", "shop", "store"]

/-- ASCII upper-casing of a string (model of toUpperCase). -/
def toUpperStr (s : String) : String :=
  ⟨s.data.map Char.toUpper⟩

/-- One anchor of the discovery loop: skip empty or unresolvable hrefs
and cross-origin links; retain a link whose lower-cased path contains a
keyword while fewer than ten distinct links are retained, with set-like
insertion. -/
def discoverStep (resolveRel : String → String → Option UrlParts)
    (baseUrl baseOrigin : String) (acc : List String) (href : String) :
    List String :=
  if href = "" then acc
  else
    match resolveRel href baseUrl with
    | none => acc
    | some u =>
      if u.origin ≠ baseOrigin then acc
      else
        let path := toLowerStr u.pathname
        if (pageKeywords.any fun k => containsSub k.data path.data) ∧
            acc.length < 10 then
          if u.href ∈ acc then acc else acc ++ [u.href]
        else acc

/-- Model of WebsiteAnalysisService.findImportantPages: every href is
resolved against the base URL (unresolvable ones skipped), cross-origin
results are discarded, a result is retained when its lower-cased path
contains a keyword and fewer than ten distinct URLs have been retained,
retention is set-like (first occurrence wins), and the first five retained
URLs are returned. The result is none exactly when the base URL itself
does not parse, which the source surfaces as a thrown error. -/
def findImportantPages (parseAbs : String → Option UrlParts)
    (resolveRel : String → String → Option UrlParts)
    (baseUrl : String) (anchors : List String) : Option (List String) :=
  match parseAbs baseUrl with
  | none => none
  | some parsedBase =>
    some ((anchors.foldl
      (discoverStep resolveRel baseUrl parsedBase.origin) []).take 5)

/-! ## AnalysisOrchestrator: analyzeWebsite and analyzeWebsitePages

The orchestrator threads an explicit per-tenant store (the
website_analysis row and the analyzed_pages rows of the storage
collaborator) and consumes an environment of collaborator oracles:
scrapeWebsite and fetchPageHtml results, the cheerio/URL functions of page
discovery, the OpenAI summarize and merge calls, JSON parsing and
printing, and the page-name computation. A returned error value stands for
the rethrown exception of the catch block, which has already durably
written the failed status.
-/

/-- The structured profile produced by the synthesizer, field for field
the AnalyzedWebsiteContent interface of the source. -/
structure ContactInfo where
  email : Option String
  phone : Option String
  address : Option String
  deriving Repr, DecidableEq

/-- Structured profile record (AnalyzedWebsiteContent in the source). -/
structure AnalyzedWebsiteContent where
  businessName : String
  businessDescription : String
  mainProducts : List String
  mainServices : List String
  keyFeatures : List String
  targetAudience : String
  uniqueSellingPoints : List String
  contactInfo : ContactInfo
  businessHours : Option String
  pricingInfo : Option String
  additionalInfo : String
  deriving Repr, DecidableEq

/-- Every error that can reach an orchestrator catch block: the fetch and
validation errors of the page pipeline, the whole-run scrape failure, and
synthesizer failures. -/
inductive AnalysisError where
  | timeout
  | redirectRejected
  | httpError (status : Nat)
  | unexpectedContentType
  | contentTooLarge
  | sizeLimitExceeded
  | noBody
  | invalidUrl
  | disallowedProtocol
  | blockedHost
  | unresolvableHost
  | dnsRebindingBlocked
  | networkError
  | scrapeFailed
  | emptyAiResponse
  | badAiJson
  deriving Repr, DecidableEq

/-- The human-readable message of each error, modelling the message
property read by the catch blocks (one representative message per kind;
the scrape-failure and timeout messages are the literal source strings). -/
def errMessage : AnalysisError → String
  | .timeout => "Website request timed out"
  | .redirectRejected => "Website redirects are not supported. Please provide the final URL."
  | .httpError _ => "Failed to fetch website: HTTP error"
  | .unexpectedContentType => "Website did not return HTML content"
  | .contentTooLarge => "Website content is too large"
  | .sizeLimitExceeded => "Website content exceeded size limit during download"
  | .noBody => "Response body is not available"
  | .invalidUrl => "Invalid URL format"
  | .disallowedProtocol => "Only HTTP and HTTPS protocols are allowed"
  | .blockedHost => "Access to localhost is not allowed"
  | .unresolvableHost => "Unable to resolve hostname"
  | .dnsRebindingBlocked => "Domain resolves to a private IP address"
  | .networkError => "Unable to access the website. Please check the URL and try again."
  | .scrapeFailed => "Failed to scrape any pages"
  | .emptyAiResponse => "OpenAI returned empty response"
  | .badAiJson => "Unexpected token in JSON"

/-- The per-tenant website_analysis row (the timestamp is modelled by a
flag recording whether lastAnalyzedAt is set). -/
structure AnalysisRow where
  websiteUrl : String
  status : String
  analyzedContent : Option String
  errorMessage : Option String
  lastAnalyzedAt : Bool
  deriving Repr, DecidableEq

/-- The tenant-scoped slice of the storage collaborator: the optional
website_analysis row and the analyzed_pages rows in insertion order. -/
structure Store where
  analysis : Option AnalysisRow
  pages : List String
  deriving Repr, DecidableEq

/-- The field update applied to a row by updateStatus. -/
def statusPatch (r : AnalysisRow) (status : String)
    (errorMessage : Option String) : AnalysisRow :=
  { r with status := status, errorMessage := errorMessage,
           lastAnalyzedAt := decide (status = "completed") }

/-- Model of storage.updateWebsiteAnalysisStatus: an update that matches
no row is a no-op; otherwise status and errorMessage are written (the
omitted message becomes null) and lastAnalyzedAt is set exactly when the
new status is completed. -/
def updateStatus (s : Store) (status : String) (errorMessage : Option String) :
    Store :=
  { s with analysis := s.analysis.map fun r => statusPatch r status errorMessage }

/-- Model of storage.upsertWebsiteAnalysis for the patch shape the
orchestrator uses (websiteUrl, status, analyzedContent): an existing row
keeps its other fields; a missing row is created with them defaulted. -/
def upsertAnalysis (s : Store) (websiteUrl : String) (status : String)
    (analyzedContent : Option String) : Store :=
  match s.analysis with
  | some r =>
    let r1 : AnalysisRow :=
      { r with websiteUrl := websiteUrl, status := status,
               analyzedContent := analyzedContent }
    { s with analysis := some r1 }
  | none =>
    let r1 : AnalysisRow :=
      { websiteUrl := websiteUrl, status := status,
        analyzedContent := analyzedContent, errorMessage := none,
        lastAnalyzedAt := false }
    { s with analysis := some r1 }

/-- Model of storage.createAnalyzedPage: an unconditional insert. -/
def appendPage (s : Store) (url : String) : Store :=
  { s with pages := s.pages ++ [url] }

/-- The URL normalization applied before recording analyzed pages:
lower-case and strip one trailing slash. -/
def normalizeUrl (url : String) : String :=
  let l := (toLowerStr url).data
  ⟨if l.getLast? = some '/' then l.dropLast else l⟩

/-- First-occurrence deduplication, the model of collecting into a
JavaScript Set and reading it back in insertion order. -/
def dedupKeepFirst (xs : List String) : List String :=
  xs.foldl (fun acc x => if x ∈ acc then acc else acc ++ [x]) []

/-- Whether a string is empty after trimming, the model of the falsiness
test on combinedContent.trim(). -/
def isBlank (s : String) : Bool :=
  s.data.all fun c => c == ' ' || c == '\t' || c == '\n' || c == '\r'

/-- The collaborator oracles the orchestrator runs against. -/
structure Env where
  scrape : String → Except AnalysisError String
  fetchHtml : String → Except AnalysisError String
  parseAbs : String → Option UrlParts
  resolveRel : String → String → Option UrlParts
  anchors : String → List String
  summarize : String → Except AnalysisError AnalyzedWebsiteContent
  mergeData : AnalyzedWebsiteContent → String →
    Except AnalysisError AnalyzedWebsiteContent
  parseProfile : String → Option AnalyzedWebsiteContent
  printProfile : AnalyzedWebsiteContent → String
  pageName : String → String

/-- The page-section concatenation of analyzeWebsitePages: failed scrapes
contribute nothing, successful ones append a named section. -/
def combinedPagesContent (env : Env) (pageUrls : List String) : String :=
  pageUrls.foldl (fun acc pageUrl =>
      match env.scrape pageUrl with
      | .error _ => acc
      | .ok pageContent =>
        acc ++ toUpperStr (env.pageName pageUrl) ++ " PAGE (" ++ pageUrl ++
          "):\n" ++ pageContent ++ "\n\n") ""

/-- The append-mode read of the stored profile: outside append mode, or
with no row, no stored content, empty stored content, or unparseable
stored content, there is nothing to merge into. -/
def readExistingProfile (env : Env) (appendMode : Bool) (s : Store) :
    Option AnalyzedWebsiteContent :=
  if appendMode then
    match s.analysis with
    | some analysis =>
      match analysis.analyzedContent with
      | some content => if content = "" then none else env.parseProfile content
      | none => none
    | none => none
  else none

/-- The synthesizer call: merge when appending onto an existing profile,
summarize otherwise. -/
def synthesisResult (env : Env) (appendMode : Bool)
    (existingData : Option AnalyzedWebsiteContent) (combined : String) :
    Except AnalysisError AnalyzedWebsiteContent :=
  match existingData, appendMode with
  | some existing, true => env.mergeData existing combined
  | _, _ => env.summarize combined

/-- Model of WebsiteAnalysisService.analyzeWebsitePages: set the status
to analyzing; scrape the given pages in order, skipping failures while
concatenating page sections; fail the whole run when nothing was
collected; in append mode read the stored profile (absent, empty or
unparseable content merges nothing); merge or summarize; on success
persist the profile with the first given URL, insert one analyzed_pages
row per distinct normalized URL of the input list, and finish completed.
Any error is recorded as a failed status with the error message before
the error is returned. -/
def analyzeWebsitePages (env : Env) (pageUrls : List String)
    (appendMode : Bool) (s0 : Store) : Except AnalysisError Unit × Store :=
  let s := updateStatus s0 "analyzing" none
  let combinedContent := combinedPagesContent env pageUrls
  if isBlank combinedContent then
    (.error .scrapeFailed,
     updateStatus s "failed" (some (errMessage .scrapeFailed)))
  else
    match synthesisResult env appendMode
        (readExistingProfile env appendMode s) combinedContent with
    | .error e => (.error e, updateStatus s "failed" (some (errMessage e)))
    | .ok analyzedContent =>
      let s1 := upsertAnalysis s (pageUrls.headD "") "completed"
        (some (env.printProfile analyzedContent))
      let uniquePages := dedupKeepFirst (pageUrls.map normalizeUrl)
      let s2 := uniquePages.foldl appendPage s1
      (.ok (), updateStatus s2 "completed" none)

/-- The page-section concatenation of analyzeWebsite: the homepage text
first, then one named section per successfully scraped discovered page. -/
def combinedSiteContent (env : Env) (homepageContent : String)
    (additionalPages : List String) : String :=
  additionalPages.foldl (fun acc pageUrl =>
      match env.scrape pageUrl with
      | .error _ => acc
      | .ok pageContent =>
        acc ++ "\n\n" ++ toUpperStr (env.pageName pageUrl) ++
          " PAGE CONTENT:\n" ++ pageContent ++ "\n")
    ("HOMEPAGE CONTENT:\n" ++ homepageContent ++ "\n\n")

/-- Model of WebsiteAnalysisService.analyzeWebsite: set the status to
analyzing; scrape the homepage and fetch its raw HTML (either failure
fails the run); discover up to five additional pages; scrape each of
them, skipping failures; summarize; on success persist the profile,
insert one analyzed_pages row per distinct normalized URL among the
homepage and every discovered page (scraped successfully or not), and
finish completed. Any error is recorded as a failed status with the error
message before the error is returned. -/
def analyzeWebsite (env : Env) (websiteUrl : String) (s0 : Store) :
    Except AnalysisError Unit × Store :=
  let s := updateStatus s0 "analyzing" none
  match env.scrape websiteUrl with
  | .error e => (.error e, updateStatus s "failed" (some (errMessage e)))
  | .ok homepageContent =>
    match env.fetchHtml websiteUrl with
    | .error e => (.error e, updateStatus s "failed" (some (errMessage e)))
    | .ok homepageHtml =>
      match findImportantPages env.parseAbs env.resolveRel websiteUrl
          (env.anchors homepageHtml) with
      | none =>
        (.error .invalidUrl,
         updateStatus s "failed" (some (errMessage .invalidUrl)))
      | some additionalPages =>
        match env.summarize
            (combinedSiteContent env homepageContent additionalPages) with
        | .error e => (.error e, updateStatus s "failed" (some (errMessage e)))
        | .ok analyzedContent =>
          let s1 := upsertAnalysis s websiteUrl "completed"
            (some (env.printProfile analyzedContent))
          let uniquePages :=
            dedupKeepFirst ((websiteUrl :: additionalPages).map normalizeUrl)
          let s2 := uniquePages.foldl appendPage s1
          (.ok (), updateStatus s2 "completed" none)

/-- The property every URL retained by the discovery loop satisfies: it
is the serialization of a link resolved against the base URL whose origin
is the base origin and whose lower-cased path contains one of the fixed
keywords. -/
def GoodDiscovered (resolveRel : String → String → Option UrlParts)
    (baseUrl baseOrigin url : String) : Prop :=
  ∃ href parts, resolveRel href baseUrl = some parts ∧ parts.href = url ∧
    parts.origin = baseOrigin ∧
    (pageKeywords.any fun k =>
      containsSub k.data (toLowerStr parts.pathname).data) = true

/-! ## Concrete fixtures used by witnesses and counterexamples -/

/-- A response that declares a tiny Content-Length but streams 6 MiB. -/
def lyingLengthResp : HttpResponse :=
  { status := 200, contentType := some "text/html", contentLength := some 100,
    hasBody := true, chunks := [List.replicate (6 * 1024 * 1024) 0] }

/-- A plain 301 redirect response. -/
def redirectResp : HttpResponse :=
  { status := 301, contentType := none, contentLength := none,
    hasBody := true, chunks := [] }

/-- An empty synthesized profile used by the scenario environments. -/
def emptyProfile : AnalyzedWebsiteContent :=
  { businessName := "Acme", businessDescription := "desc",
    mainProducts := [], mainServices := [], keyFeatures := [],
    targetAudience := "aud", uniqueSellingPoints := [],
    contactInfo := { email := none, phone := none, address := none },
    businessHours := none, pricingInfo := none, additionalInfo := "" }

/-- The pending row the HTTP layer creates before starting a run. -/
def pendingRow : AnalysisRow :=
  { websiteUrl := "https://site.com", status := "pending",
    analyzedContent := none, errorMessage := none, lastAnalyzedAt := false }

/-- A store holding only the pending row. -/
def pendingStore : Store := { analysis := some pendingRow, pages := [] }

/-- Scenario environment: the homepage scrapes fine and links to an about
page (whose scrape times out) and a contact page (whose scrape is a 404);
the synthesizer succeeds. -/
def scenarioEnv : Env :=
  { scrape := fun u =>
      if u = "https://site.com" then .ok "HOME"
      else if u = "https://site.com/about" then .error .timeout
      else .error (.httpError 404),
    fetchHtml := fun _ => .ok "homepage html",
    parseAbs := fun s =>
      if s = "https://site.com" then
        some { href := "https://site.com/", origin := "https://site.com",
               pathname := "/" }
      else none,
    resolveRel := fun href base =>
      if base = "https://site.com" ∧ href = "/about" then
        some { href := "https://site.com/about", origin := "https://site.com",
               pathname := "/about" }
      else if base = "https://site.com" ∧ href = "/contact" then
        some { href := "https://site.com/contact",
               origin := "https://site.com", pathname := "/contact" }
      else none,
    anchors := fun _ => ["/about", "/contact"],
    summarize := fun _ => .ok emptyProfile,
    mergeData := fun _ _ => .ok emptyProfile,
    parseProfile := fun _ => none,
    printProfile := fun _ => "profile-json",
    pageName := fun u => if u = "https://site.com/about" then "about"
      else "contact" }

/-- The row the scenario run is expected to leave behind. -/
def scenarioDoneRow : AnalysisRow :=
  { websiteUrl := "https://site.com", status := "completed",
    analyzedContent := some "profile-json", errorMessage := none,
    lastAnalyzedAt := true }

/-- The store the scenario run is expected to leave behind. -/
def scenarioDoneStore : Store :=
  { analysis := some scenarioDoneRow,
    pages := ["https://site.com", "https://site.com/about",
              "https://site.com/contact"] }

/-! ## Supporting lemmas -/

theorem splitOnDot_ne_nil (cs : List Char) : splitOnDot cs ≠ [] := by
  match cs with
  | [] => simp [splitOnDot]
  | c :: rest =>
    unfold splitOnDot
    by_cases h : c = '.'
    · simp [h]
    · simp only [if_neg h]
      cases splitOnDot rest <;> simp

theorem splitOnDot_nodot (xs : List Char) (h : ∀ c ∈ xs, c ≠ '.') :
    splitOnDot xs = [xs] := by
  induction xs with
  | nil => rfl
  | cons c rest ih =>
    unfold splitOnDot
    rw [if_neg (h c (by simp))]
    rw [ih (fun x hx => h x (by simp [hx]))]

theorem splitOnDot_append_dot (xs ys : List Char) (h : ∀ c ∈ xs, c ≠ '.') :
    splitOnDot (xs ++ '.' :: ys) = xs :: splitOnDot ys := by
  induction xs with
  | nil => simp [splitOnDot]
  | cons c rest ih =>
    have hc : c ≠ '.' := h c (by simp)
    have ih2 := ih (fun x hx => h x (by simp [hx]))
    simp only [List.cons_append]
    conv_lhs => unfold splitOnDot
    rw [if_neg hc, ih2]

theorem isOctet_all {cs : List Char} (h : isOctet cs = true) :
    ∀ c ∈ cs, isDigitChar c = true := by
  unfold isOctet at h
  simp only [Bool.and_eq_true] at h
  exact fun c hc => List.all_eq_true.mp h.2 c hc

theorem isDigitChar_ne_dot {c : Char} (h : isDigitChar c = true) : c ≠ '.' := by
  intro hc
  subst hc
  simp [isDigitChar] at h

theorem isOctet_nodot {cs : List Char} (h : isOctet cs = true) :
    ∀ c ∈ cs, c ≠ '.' :=
  fun c hc => isDigitChar_ne_dot (isOctet_all h c hc)

theorem isDigitChar_cases {c : Char} (h : isDigitChar c = true) :
    c = '0' ∨ c = '1' ∨ c = '2' ∨ c = '3' ∨ c = '4' ∨
    c = '5' ∨ c = '6' ∨ c = '7' ∨ c = '8' ∨ c = '9' := by
  simp [isDigitChar] at h
  tauto

theorem ipv6Special_digit_head {c : Char} (cs : List Char)
    (h : isDigitChar c = true) : ipv6Special (c :: cs) = false := by
  rcases isDigitChar_cases h with rfl | rfl | rfl | rfl | rfl | rfl | rfl | rfl | rfl | rfl <;>
    simp [ipv6Special, startsWithChars]

theorem isOctet_exists_head {cs : List Char} (h : isOctet cs = true) :
    ∃ c rest, cs = c :: rest ∧ isDigitChar c = true := by
  cases cs with
  | nil => simp [isOctet] at h
  | cons c rest => exact ⟨c, rest, rfl, isOctet_all h c (by simp)⟩

/-- The four-octet split of a dotted quad built from octet strings. -/
theorem splitOnDot_quad {sa sb sc sd : List Char}
    (ha : isOctet sa = true) (hb : isOctet sb = true)
    (hc : isOctet sc = true) (hd : isOctet sd = true) :
    splitOnDot (sa ++ '.' :: (sb ++ '.' :: (sc ++ '.' :: sd))) =
      [sa, sb, sc, sd] := by
  rw [splitOnDot_append_dot _ _ (isOctet_nodot ha),
      splitOnDot_append_dot _ _ (isOctet_nodot hb),
      splitOnDot_append_dot _ _ (isOctet_nodot hc),
      splitOnDot_nodot _ (isOctet_nodot hd)]

/-! ## Claim theorems -/

/-- C1 (amended): for every dotted quad built from four octet groups of
one to three digits, isPrivateIP returns true exactly when some component
exceeds 255 or the address lies in 0/8, 10/8, 127/8, 172.16/12,
192.168/16, 169.254/16, one of the three documentation ranges, or at or
above 224.0.0.0; in particular every public IPv4 address outside those
ranges returns false. Components of four or more digits fall outside the
anchored regex, so the original claim fails for them (see the
counterexample); the concrete conjuncts record the behavior on examples
from the claim. -/
theorem isPrivateIP_quad_classification
    (s : String) (sa sb sc sd : List Char) (a b c d : Nat)
    (hs : s.data = sa ++ '.' :: (sb ++ '.' :: (sc ++ '.' :: sd)))
    (ha : isOctet sa = true) (hb : isOctet sb = true)
    (hc : isOctet sc = true) (hd : isOctet sd = true)
    (hva : digitsVal sa = a) (hvb : digitsVal sb = b)
    (hvc : digitsVal sc = c) (hvd : digitsVal sd = d) :
    isPrivateIP s = true ↔
      (255 < a ∨ 255 < b ∨ 255 < c ∨ 255 < d ∨
       a = 0 ∨ a = 10 ∨ a = 127 ∨ (a = 172 ∧ 16 ≤ b ∧ b ≤ 31) ∨
       (a = 192 ∧ b = 168) ∨ (a = 169 ∧ b = 254) ∨
       (a = 192 ∧ b = 0 ∧ c = 2) ∨ (a = 198 ∧ b = 51 ∧ c = 100) ∨
       (a = 203 ∧ b = 0 ∧ c = 113) ∨ 224 ≤ a) := by
  obtain ⟨c0, rest0, hsa, hdig⟩ := isOctet_exists_head ha
  have h6 : ipv6Special s.data = false := by
    rw [hs, hsa, List.cons_append]
    exact ipv6Special_digit_head _ hdig
  have hiv4 : ipv4Part s.data = ipv4Blocked a b c d := by
    rw [hs]
    unfold ipv4Part
    rw [splitOnDot_quad ha hb hc hd]
    show (if isOctet sa && isOctet sb && isOctet sc && isOctet sd then
        ipv4Blocked (digitsVal sa) (digitsVal sb) (digitsVal sc) (digitsVal sd)
      else false) = _
    rw [ha, hb, hc, hd, hva, hvb, hvc, hvd]
    rfl
  have hval : isPrivateIP s = ipv4Blocked a b c d := by
    unfold isPrivateIP isPrivateIPChars
    rw [hiv4, h6, Bool.or_false]
  rw [hval]
  unfold ipv4Blocked
  simp only [Bool.or_eq_true, decide_eq_true_eq, or_assoc]

/-- C1 counterexample: the string 1000.0.0.1 is a dotted quad whose first
component is 1000, exceeding 255, yet isPrivateIP does not block it: the
four-digit component falls outside the one-to-three-digit groups of the
anchored IPv4 regex, so the address is treated as a non-IP string. -/
theorem isPrivateIP_bigOctet_not_blocked :
    isPrivateIP "1000.0.0.1" = false ∧
    "1000.0.0.1".data =
      ['1', '0', '0', '0'] ++ '.' :: (['0'] ++ '.' :: (['0'] ++ '.' :: ['1'])) ∧
    digitsVal ['1', '0', '0', '0'] = 1000 := by
  exact ⟨by decide, by decide, by decide⟩

/-- C1 witness: the classification applied at 10.0.0.1 (blocked) and at
8.8.8.8 (public, not blocked). -/
theorem isPrivateIP_quad_classification_witness :
    isPrivateIP "10.0.0.1" = true ∧ isPrivateIP "8.8.8.8" = false := by
  constructor
  · exact (isPrivateIP_quad_classification "10.0.0.1" ['1', '0'] ['0'] ['0'] ['1']
      10 0 0 1 (by decide) (by decide) (by decide) (by decide) (by decide)
      (by decide) (by decide) (by decide) (by decide)).mpr (by omega)
  · have h := isPrivateIP_quad_classification "8.8.8.8" ['8'] ['8'] ['8'] ['8']
      8 8 8 8 (by decide) (by decide) (by decide) (by decide) (by decide)
      (by decide) (by decide) (by decide) (by decide)
    cases hv : isPrivateIP "8.8.8.8" with
    | false => rfl
    | true => exact absurd (h.mp hv) (by omega)

/-- C10: isPrivateIP is a total function, and on every string that
neither matches the dotted-quad regex nor matches one of the IPv6 special
forms it returns false (not blocked); in particular the malformed shapes
1.2.3 and 1.2.3.4.5 and an ordinary hostname are classified as not
blocked, leaving such inputs to the later DNS-resolution check. -/
theorem isPrivateIP_nonmatching_false :
    (∀ s : String, matchesIPv4Quad s.data = false → ipv6Special s.data = false →
      isPrivateIP s = false) ∧
    isPrivateIP "1.2.3" = false ∧ isPrivateIP "1.2.3.4.5" = false ∧
    isPrivateIP "internal-hostname.example" = false := by
  refine ⟨?_, by decide, by decide, by decide⟩
  intro s hq h6
  unfold isPrivateIP isPrivateIPChars
  rw [h6, Bool.or_false]
  unfold matchesIPv4Quad at hq
  unfold ipv4Part
  generalize hl : splitOnDot s.data = l at hq ⊢
  rcases l with _ | ⟨sa, _ | ⟨sb, _ | ⟨sc, _ | ⟨sd, _ | ⟨se, l⟩⟩⟩⟩⟩ <;> simp_all

/-- C10 witness: the general part applied to a concrete hostname. -/
theorem isPrivateIP_nonmatching_false_witness :
    isPrivateIP "acme-shop.example" = false :=
  isPrivateIP_nonmatching_false.1 "acme-shop.example" (by decide) (by decide)

/-- The protocol of a parsed URL is the fixed protocol argument. -/
theorem parseWithProto_protocol {p : String} {rest : List Char} {u : ParsedUrl}
    (h : parseWithProto p rest = some u) : u.protocol = p := by
  unfold parseWithProto at h
  rw [Option.map_eq_some'] at h
  obtain ⟨host, -, hu⟩ := h
  rw [← hu]

/-- A URL accepted by the parser carries the http or the https protocol;
in particular the protocol allow-list of validateUrl can never fire. -/
theorem parseHttpUrl_protocol {s : String} {u : ParsedUrl}
    (h : parseHttpUrl s = some u) :
    u.protocol = "http:" ∨ u.protocol = "https:" := by
  unfold parseHttpUrl at h
  by_cases h1 : startsWithChars httpPre s.data = true
  · rw [if_pos h1] at h
    exact Or.inl (parseWithProto_protocol h)
  · rw [if_neg h1] at h
    by_cases h2 : startsWithChars httpsPre s.data = true
    · rw [if_pos h2] at h
      exact Or.inr (parseWithProto_protocol h)
    · rw [if_neg h2] at h
      simp at h

/-- A list on which some element satisfies a predicate is not empty. -/
theorem isEmpty_false_of_any {l : List String} {p : String → Bool}
    (h : l.any p = true) : l.isEmpty = false := by
  cases l with
  | nil => simp at h
  | cons x xs => simp

/-- C2: for every URL whose (scheme-completed) parse yields a hostname
that passes the pre-flight checks — not localhost, not a metadata name,
not caught by the literal-IP guard — and whose combined A and AAAA
resolution contains at least one blocked address anywhere in the list,
validateUrl fails with DnsRebindingBlocked: HostPolicy runs over every
resolved address, not just the first. -/
theorem validateUrl_dns_rebinding
    (dns4 dns6 : String → List String) (url : String) (u : ParsedUrl)
    (hparse : parseHttpUrl (ensureScheme url) = some u)
    (hlocal : toLowerStr u.hostname ≠ "localhost")
    (hmeta : containsSub "metadata".data (toLowerStr u.hostname).data = false)
    (hlit : ((isPrivateIP (toLowerStr u.hostname) ||
        (toLowerStr u.hostname).data.any (fun c => c == ':')) &&
        isPrivateIP (stripBrackets (toLowerStr u.hostname))) = false)
    (hblocked : ((dns4 (toLowerStr u.hostname)) ++
        (dns6 (toLowerStr u.hostname))).any isPrivateIP = true) :
    validateUrl dns4 dns6 url = .error .dnsRebindingBlocked := by
  have hp := parseHttpUrl_protocol hparse
  simp only [validateUrl, hparse]
  rw [if_neg (by tauto)]
  rw [if_neg hlocal]
  rw [if_neg (by simp [hmeta])]
  rw [if_neg (by simp [hlit])]
  rw [if_neg (by simp [isEmpty_false_of_any hblocked])]
  rw [if_pos hblocked]

/-- C2 witness: a public-looking domain that resolves to a public address
first and the loopback address second is rejected with
DnsRebindingBlocked, showing the second resolved address is checked. -/
theorem validateUrl_dns_rebinding_witness :
    validateUrl (fun _ => ["93.184.216.34", "127.0.0.1"]) noDns
      "https://rebind.example.com/a" = .error .dnsRebindingBlocked :=
  validateUrl_dns_rebinding (fun _ => ["93.184.216.34", "127.0.0.1"]) noDns
    "https://rebind.example.com/a" ⟨"https:", "rebind.example.com"⟩
    (by decide) (by decide) (by decide) (by decide) (by decide)

/-- A URL whose scheme-completed form does not parse fails with
InvalidUrl, before any DNS lookup can be consulted. -/
theorem validateUrl_invalid (dns4 dns6 : String → List String) (url : String)
    (hparse : parseHttpUrl (ensureScheme url) = none) :
    validateUrl dns4 dns6 url = .error .invalidUrl := by
  simp only [validateUrl, hparse]

/-- A URL parsing to the hostname localhost fails with BlockedHost,
before any DNS lookup can be consulted. -/
theorem validateUrl_localhost (dns4 dns6 : String → List String)
    (url : String) (u : ParsedUrl)
    (hparse : parseHttpUrl (ensureScheme url) = some u)
    (hl : toLowerStr u.hostname = "localhost") :
    validateUrl dns4 dns6 url = .error .blockedHost := by
  have hp := parseHttpUrl_protocol hparse
  simp only [validateUrl, hparse]
  rw [if_neg (by tauto), if_pos hl]

/-- No parse-accepted URL can ever fail with DisallowedProtocol: the
parser only produces the http and https protocols, and every later branch
of validateUrl produces a different outcome. -/
theorem validateUrl_ne_disallowed (dns4 dns6 : String → List String)
    (url : String) (u : ParsedUrl)
    (hparse : parseHttpUrl (ensureScheme url) = some u) :
    validateUrl dns4 dns6 url ≠ .error .disallowedProtocol := by
  have hp := parseHttpUrl_protocol hparse
  simp only [validateUrl, hparse]
  rw [if_neg (by tauto)]
  split
  · simp
  · split
    · simp
    · split
      · simp
      · split
        · simp
        · split <;> simp

/-- C7 (amended): validateUrl rejects http://localhost/x with BlockedHost
and the unparseable input (not a url) with InvalidUrl, both independently
of DNS, so before any resolution; but ftp://example.com never yields
DisallowedProtocol: the code prepends https:// to any URL lacking an
http(s) prefix, the result parses with hostname ftp, and validation
proceeds to DNS, failing with UnresolvableHost when that name does not
resolve. -/
theorem validateUrl_preflight_behavior :
    (∀ dns4 dns6 : String → List String,
      validateUrl dns4 dns6 "http://localhost/x" = .error .blockedHost) ∧
    (∀ dns4 dns6 : String → List String,
      validateUrl dns4 dns6 "not a url" = .error .invalidUrl) ∧
    (∀ dns4 dns6 : String → List String,
      validateUrl dns4 dns6 "ftp://example.com" ≠ .error .disallowedProtocol) ∧
    validateUrl noDns noDns "ftp://example.com" = .error .unresolvableHost := by
  refine ⟨?_, ?_, ?_, by decide⟩
  · intro dns4 dns6
    exact validateUrl_localhost dns4 dns6 "http://localhost/x"
      ⟨"http:", "localhost"⟩ (by decide) (by decide)
  · intro dns4 dns6
    exact validateUrl_invalid dns4 dns6 "not a url" (by decide)
  · intro dns4 dns6
    exact validateUrl_ne_disallowed dns4 dns6 "ftp://example.com"
      ⟨"https:", "ftp"⟩ (by decide)

/-- C7 counterexample: at the explicit input ftp://example.com (with a
resolver that cannot resolve the name ftp, matching reality), validateUrl
returns UnresolvableHost and not the DisallowedProtocol the claim
predicts: after https:// is prepended, the string parses as an https URL
with hostname ftp. -/
theorem validateUrl_ftp_not_disallowed :
    validateUrl noDns noDns "ftp://example.com" ≠ .error .disallowedProtocol ∧
    validateUrl noDns noDns "ftp://example.com" = .error .unresolvableHost ∧
    parseHttpUrl (ensureScheme "ftp://example.com") =
      some { protocol := "https:", hostname := "ftp" } := by
  exact ⟨by decide, by decide, by decide⟩

/-- C7 witness: the amended theorem applied at concrete resolvers. -/
theorem validateUrl_preflight_behavior_witness :
    validateUrl noDns noDns "http://localhost/x" = .error .blockedHost ∧
    validateUrl noDns noDns "not a url" = .error .invalidUrl :=
  ⟨validateUrl_preflight_behavior.1 noDns noDns,
   validateUrl_preflight_behavior.2.1 noDns noDns⟩

theorem totalBytes_cons (c : List Nat) (rest : List (List Nat)) :
    totalBytes (c :: rest) = c.length + totalBytes rest := by
  simp [totalBytes]

/-- Once a nonempty prefix of the stream exceeds the cap, the read loop
aborts with the streaming size error no matter what would follow: the
suffix of the body is never consumed. -/
theorem readChunks_overflow (maxSize : Nat) (pre : List (List Nat)) :
    pre ≠ [] → ∀ (t : Nat) (suf : List (List Nat)),
      maxSize < t + totalBytes pre →
      readChunks maxSize t (pre ++ suf) = .error .sizeLimitExceeded := by
  induction pre with
  | nil => intro h; exact absurd rfl h
  | cons c pre' ih =>
    intro _ t suf hover
    rw [List.cons_append]
    unfold readChunks
    by_cases hc : maxSize < t + c.length
    · rw [if_pos (by omega)]
    · rw [if_neg (by omega)]
      cases pre' with
      | nil =>
        rw [totalBytes_cons] at hover
        simp [totalBytes] at hover
        omega
      | cons c2 pre'' =>
        rw [ih (by simp) (t + c.length) suf
          (by rw [totalBytes_cons] at hover; omega)]

/-- The link-discovery fetch succeeds and returns the truncated buffered
body whenever the status is 2xx and the Content-Length header (when
present) does not exceed 5 MiB: nothing on this path inspects the actual
body size. -/
theorem fetchPageHtmlPhase_ok_of (resp : HttpResponse)
    (h1 : 200 ≤ resp.status) (h2 : resp.status ≤ 299)
    (hcl : ∀ n, resp.contentLength = some n → n ≤ maxScrapeBytes) :
    fetchPageHtmlPhase resp = .ok (resp.chunks.flatten.take htmlCharLimit) := by
  unfold fetchPageHtmlPhase
  rw [if_neg (by omega), if_neg (by omega)]
  cases hclv : resp.contentLength with
  | none => simp
  | some n =>
    have hn := hcl n hclv
    simp [Nat.not_lt.mpr hn]

/-- The lying response streams exactly 6 MiB. -/
theorem totalBytes_lying : totalBytes lyingLengthResp.chunks = 6 * 1024 * 1024 := by
  have hch : lyingLengthResp.chunks = [List.replicate (6 * 1024 * 1024) 0] := rfl
  rw [hch]
  simp only [totalBytes, List.map_cons, List.map_nil, List.length_replicate,
    List.sum_cons, List.sum_nil, Nat.add_zero]

/-- C3 (amended): the scrapeWebsite fetch path enforces the 5 MiB cap by
streaming — whenever the cumulative body size exceeds the cap, the read
aborts with the streaming size error even though the Content-Length
header declared an acceptable size, and the abort is decided by the
offending prefix alone, independent of the rest of the body; the
fetchPageHtml (link-discovery) path has no streaming enforcement: it
checks only the Content-Length header against 5 MiB (not 500 KiB) and
otherwise buffers the whole body, truncating the text to 500000
characters. -/
theorem boundedFetch_streaming_behavior :
    (∀ resp : HttpResponse,
      200 ≤ resp.status → resp.status ≤ 299 →
      resp.contentType = some "text/html" →
      (∀ n, resp.contentLength = some n → n ≤ maxScrapeBytes) →
      resp.hasBody = true →
      maxScrapeBytes < totalBytes resp.chunks →
      scrapeFetchPhase resp = .error .sizeLimitExceeded) ∧
    (∀ (maxSize t : Nat) (pre suf1 suf2 : List (List Nat)), pre ≠ [] →
      maxSize < t + totalBytes pre →
      readChunks maxSize t (pre ++ suf1) = readChunks maxSize t (pre ++ suf2)) ∧
    (∀ resp : HttpResponse,
      200 ≤ resp.status → resp.status ≤ 299 →
      (∀ n, resp.contentLength = some n → n ≤ maxScrapeBytes) →
      fetchPageHtmlPhase resp = .ok (resp.chunks.flatten.take htmlCharLimit)) := by
  refine ⟨?_, ?_, ?_⟩
  · intro resp h1 h2 hct hcl hbody hover
    have hread : readChunks maxScrapeBytes 0 resp.chunks =
        .error .sizeLimitExceeded := by
      have hne : resp.chunks ≠ [] := by
        intro hnil
        rw [hnil] at hover
        simp [totalBytes] at hover
      have := readChunks_overflow maxScrapeBytes resp.chunks hne 0 []
        (by omega)
      rwa [List.append_nil] at this
    unfold scrapeFetchPhase
    rw [if_neg (by omega), if_neg (by omega), hct]
    simp only []
    rw [if_neg (by simp [show containsSub "text/html".data "text/html".data =
      true by decide])]
    simp only [hbody]
    cases hclv : resp.contentLength with
    | none => simp [hread]
    | some n =>
      have hn := hcl n hclv
      simp [hread, Nat.not_lt.mpr hn]
  · intro maxSize t pre suf1 suf2 hne hover
    rw [readChunks_overflow maxSize pre hne t suf1 hover,
        readChunks_overflow maxSize pre hne t suf2 hover]
  · intro resp h1 h2 hcl
    exact fetchPageHtmlPhase_ok_of resp h1 h2 hcl

/-- C3 counterexample: on the link-discovery pre-fetch path, a response
declaring Content-Length 100 that actually streams 6 MiB is not aborted
with the streaming size error — the body is buffered whole and truncated
— so the claim that both fetch paths enforce the cap by streaming fails
at this input. -/
theorem fetchPageHtml_no_streaming_cap :
    fetchPageHtmlPhase lyingLengthResp ≠ .error .sizeLimitExceeded ∧
    totalBytes lyingLengthResp.chunks = 6 * 1024 * 1024 ∧
    lyingLengthResp.contentLength = some 100 := by
  refine ⟨?_, totalBytes_lying, rfl⟩
  have h := fetchPageHtmlPhase_ok_of lyingLengthResp (by decide) (by decide) ?_
  · intro hbad
    rw [h] at hbad
    exact Except.noConfusion hbad
  · intro n hn
    simp only [lyingLengthResp] at hn
    injection hn with hn
    rw [← hn]
    decide

/-- C3 witness: the streaming abort applied to the same lying response on
the scrape path, and the buffering behavior on the pre-fetch path. -/
theorem boundedFetch_streaming_behavior_witness :
    scrapeFetchPhase lyingLengthResp = .error .sizeLimitExceeded ∧
    fetchPageHtmlPhase lyingLengthResp =
      .ok (lyingLengthResp.chunks.flatten.take htmlCharLimit) := by
  have hcl : ∀ n, lyingLengthResp.contentLength = some n →
      n ≤ maxScrapeBytes := by
    intro n hn
    simp only [lyingLengthResp] at hn
    injection hn with hn
    rw [← hn]
    decide
  constructor
  · exact boundedFetch_streaming_behavior.1 lyingLengthResp (by decide)
      (by decide) (by decide) hcl (by decide)
      (by rw [totalBytes_lying]; decide)
  · exact boundedFetch_streaming_behavior.2.2 lyingLengthResp (by decide)
      (by decide) hcl

/-- C4 (amended): both fetch paths use manual redirect handling and turn
every 3xx response into the terminal redirect rejection; no path follows
redirects natively. -/
theorem fetch_redirects_rejected (resp : HttpResponse)
    (h1 : 300 ≤ resp.status) (h2 : resp.status < 400) :
    scrapeFetchPhase resp = .error .redirectRejected ∧
    fetchPageHtmlPhase resp = .error .redirectRejected := by
  constructor
  · unfold scrapeFetchPhase
    rw [if_pos ⟨h1, h2⟩]
  · unfold fetchPageHtmlPhase
    rw [if_pos ⟨h1, h2⟩]

/-- C4 counterexample: the primary page fetch (the scrapeWebsite path)
rejects a 301 response with RedirectRejected instead of following it, so
the claim that the primary fetch follows redirects natively fails. -/
theorem scrapeFetch_rejects_redirect :
    scrapeFetchPhase redirectResp = .error .redirectRejected := by decide

/-- C4 witness: the amended theorem applied to the 301 response. -/
theorem fetch_redirects_rejected_witness :
    fetchPageHtmlPhase redirectResp = .error .redirectRejected :=
  (fetch_redirects_rejected redirectResp (by decide) (by decide)).2

/-- One discovery step preserves distinctness and the retained-link
property. -/
theorem discoverStep_preserves (resolveRel : String → String → Option UrlParts)
    (baseUrl baseOrigin : String) (acc : List String) (href : String)
    (h1 : acc.Nodup)
    (h2 : ∀ url ∈ acc, GoodDiscovered resolveRel baseUrl baseOrigin url) :
    (discoverStep resolveRel baseUrl baseOrigin acc href).Nodup ∧
    ∀ url ∈ discoverStep resolveRel baseUrl baseOrigin acc href,
      GoodDiscovered resolveRel baseUrl baseOrigin url := by
  unfold discoverStep
  by_cases he : href = ""
  · rw [if_pos he]
    exact ⟨h1, h2⟩
  · rw [if_neg he]
    cases hr : resolveRel href baseUrl with
    | none => exact ⟨h1, h2⟩
    | some u =>
      dsimp only
      by_cases ho : u.origin ≠ baseOrigin
      · rw [if_pos ho]
        exact ⟨h1, h2⟩
      · rw [if_neg ho]
        push_neg at ho
        by_cases hk : (pageKeywords.any fun k =>
            containsSub k.data (toLowerStr u.pathname).data) = true ∧
            acc.length < 10
        · rw [if_pos hk]
          by_cases hm : u.href ∈ acc
          · rw [if_pos hm]
            exact ⟨h1, h2⟩
          · rw [if_neg hm]
            constructor
            · rw [← List.concat_eq_append]
              exact List.Nodup.concat hm h1
            · intro url hu
              rcases List.mem_append.mp hu with hin | hin
              · exact h2 url hin
              · have : url = u.href := by simpa using hin
                subst this
                exact ⟨href, u, hr, rfl, ho, hk.1⟩
        · rw [if_neg hk]
          exact ⟨h1, h2⟩

/-- The discovery fold preserves distinctness and the retained-link
property across a whole anchor list. -/
theorem discoverFold_invariant (resolveRel : String → String → Option UrlParts)
    (baseUrl baseOrigin : String) (anchors : List String) :
    ∀ acc : List String, acc.Nodup →
      (∀ url ∈ acc, GoodDiscovered resolveRel baseUrl baseOrigin url) →
      (anchors.foldl (discoverStep resolveRel baseUrl baseOrigin) acc).Nodup ∧
      ∀ url ∈ anchors.foldl (discoverStep resolveRel baseUrl baseOrigin) acc,
        GoodDiscovered resolveRel baseUrl baseOrigin url := by
  induction anchors with
  | nil => intro acc h1 h2; exact ⟨h1, h2⟩
  | cons href rest ih =>
    intro acc h1 h2
    rw [List.foldl_cons]
    have hstep := discoverStep_preserves resolveRel baseUrl baseOrigin acc href h1 h2
    exact ih _ hstep.1 hstep.2

/-- C6: whenever discovery succeeds, it returns at most five URLs with no
duplicates, and every returned URL resolves against the base URL to the
base origin with a keyword-bearing path — no matter how many links (and
how many cross-origin links) the homepage contains. -/
theorem findImportantPages_sound
    (parseAbs : String → Option UrlParts)
    (resolveRel : String → String → Option UrlParts)
    (baseUrl : String) (anchors : List String)
    (base : UrlParts) (result : List String)
    (hbase : parseAbs baseUrl = some base)
    (hres : findImportantPages parseAbs resolveRel baseUrl anchors =
      some result) :
    result.length ≤ 5 ∧ result.Nodup ∧
    ∀ url ∈ result,
      GoodDiscovered resolveRel baseUrl base.origin url := by
  unfold findImportantPages at hres
  rw [hbase] at hres
  simp only [Option.some.injEq] at hres
  subst hres
  have hinv := discoverFold_invariant resolveRel baseUrl base.origin anchors []
    List.nodup_nil (by simp)
  refine ⟨?_, ?_, ?_⟩
  · rw [List.length_take]
    exact Nat.min_le_left 5 _
  · exact hinv.1.sublist (List.take_sublist 5 _)
  · intro url hu
    exact hinv.2 url ((List.take_sublist 5 _).subset hu)

/-- C6 witness: the soundness facts applied to the concrete scenario
homepage, at the returned about-page URL. -/
theorem findImportantPages_sound_witness :
    GoodDiscovered scenarioEnv.resolveRel "https://site.com"
      "https://site.com" "https://site.com/about" :=
  (findImportantPages_sound scenarioEnv.parseAbs scenarioEnv.resolveRel
    "https://site.com" ["/about", "/contact"]
    ⟨"https://site.com/", "https://site.com", "/"⟩
    ["https://site.com/about", "https://site.com/contact"]
    (by decide) (by decide)).2.2 "https://site.com/about" (by decide)

theorem updateStatus_pages (s : Store) (st : String) (em : Option String) :
    (updateStatus s st em).pages = s.pages := rfl

theorem upsertAnalysis_pages (s : Store) (w st : String) (c : Option String) :
    (upsertAnalysis s w st c).pages = s.pages := by
  rcases s with ⟨an, pg⟩
  cases an <;> rfl

theorem foldl_appendPage_pages (l : List String) :
    ∀ st : Store, (l.foldl appendPage st).pages = st.pages ++ l := by
  induction l with
  | nil => intro st; simp
  | cons x xs ih =>
    intro st
    rw [List.foldl_cons, ih]
    simp [appendPage]

theorem foldl_appendPage_analysis (l : List String) :
    ∀ st : Store, (l.foldl appendPage st).analysis = st.analysis := by
  induction l with
  | nil => intro st; rfl
  | cons x xs ih =>
    intro st
    rw [List.foldl_cons, ih]
    rfl

theorem updateStatus_analysis_some (s : Store) (st : String)
    (em : Option String) (r : AnalysisRow) (h : s.analysis = some r) :
    (updateStatus s st em).analysis = some (statusPatch r st em) := by
  simp [updateStatus, h]

theorem upsertAnalysis_analysis (s : Store) (w st : String)
    (c : Option String) :
    ∃ r1, (upsertAnalysis s w st c).analysis = some r1 ∧ r1.status = st ∧
      r1.websiteUrl = w ∧ r1.analyzedContent = c := by
  rcases s with ⟨an, pg⟩
  cases an with
  | none => exact ⟨_, rfl, rfl, rfl, rfl⟩
  | some r => exact ⟨_, rfl, rfl, rfl, rfl⟩

/-- C5 (amended): when the homepage scrape, the homepage HTML fetch, page
discovery and synthesis succeed, analyzeWebsite finishes with status
completed regardless of how many discovered pages failed to scrape, and
the analyzed-pages log receives one row per distinct normalized URL among
the homepage and every discovered page — including the pages whose
scrape failed. -/
theorem analyzeSite_completes_and_records
    (env : Env) (websiteUrl : String) (s0 : Store)
    (home html : String) (aps : List String)
    (profile : AnalyzedWebsiteContent)
    (hscrape : env.scrape websiteUrl = .ok home)
    (hfetch : env.fetchHtml websiteUrl = .ok html)
    (hfind : findImportantPages env.parseAbs env.resolveRel websiteUrl
      (env.anchors html) = some aps)
    (hsum : env.summarize (combinedSiteContent env home aps) = .ok profile) :
    ∃ s1 : Store, analyzeWebsite env websiteUrl s0 = (.ok (), s1) ∧
      s1.pages = s0.pages ++
        dedupKeepFirst ((websiteUrl :: aps).map normalizeUrl) ∧
      ∃ row, s1.analysis = some row ∧ row.status = "completed" ∧
        row.analyzedContent = some (env.printProfile profile) ∧
        row.errorMessage = none := by
  unfold analyzeWebsite
  simp only [hscrape, hfetch, hfind, hsum]
  refine ⟨_, rfl, ?_, ?_⟩
  · rw [updateStatus_pages, foldl_appendPage_pages, upsertAnalysis_pages,
      updateStatus_pages]
  · obtain ⟨r1, hr1, hst, hurl, hctn⟩ :=
      upsertAnalysis_analysis (updateStatus s0 "analyzing" none) websiteUrl
        "completed" (some (env.printProfile profile))
    have hfa : ((dedupKeepFirst ((websiteUrl :: aps).map
        normalizeUrl)).foldl appendPage
        (upsertAnalysis (updateStatus s0 "analyzing" none) websiteUrl
          "completed" (some (env.printProfile profile)))).analysis =
        some r1 := by
      rw [foldl_appendPage_analysis, hr1]
    refine ⟨_, updateStatus_analysis_some _ _ _ _ hfa, rfl, ?_, rfl⟩
    simpa using hctn

/-- C5 counterexample: in the scenario of the claim — homepage scrape
succeeds, the two discovered pages fail with a timeout and an HTTP 404 —
the run does complete, but the analyzed-pages log receives three rows
(homepage, about, contact), not the single homepage row the claim
predicts: failed pages are recorded too. -/
theorem analyzeSite_records_failed_pages :
    analyzeWebsite scenarioEnv "https://site.com" pendingStore =
      (.ok (), scenarioDoneStore) ∧
    scenarioDoneStore.pages =
      ["https://site.com", "https://site.com/about",
       "https://site.com/contact"] ∧
    scenarioEnv.scrape "https://site.com/about" = .error .timeout ∧
    scenarioEnv.scrape "https://site.com/contact" = .error (.httpError 404) := by
  exact ⟨by decide, by decide, by decide, by decide⟩

/-- C5 witness: the amended theorem applied to the concrete scenario. -/
theorem analyzeSite_completes_and_records_witness :
    ∃ s1 : Store,
      analyzeWebsite scenarioEnv "https://site.com" pendingStore =
        (.ok (), s1) ∧
      s1.pages = pendingStore.pages ++
        dedupKeepFirst ((["https://site.com", "https://site.com/about",
          "https://site.com/contact"] : List String).map normalizeUrl) ∧
      ∃ row, s1.analysis = some row ∧ row.status = "completed" ∧
        row.analyzedContent = some (scenarioEnv.printProfile emptyProfile) ∧
        row.errorMessage = none := by
  have h := analyzeSite_completes_and_records scenarioEnv "https://site.com"
    pendingStore "HOME" "homepage html"
    ["https://site.com/about", "https://site.com/contact"] emptyProfile
    (by decide) (by decide) (by decide) (by decide)
  simpa using h

/-- With no row, no stored content, empty stored content or unparseable
stored content, the append-mode read yields nothing to merge into. -/
theorem readExistingProfile_none (env : Env) (s : Store)
    (h : s.analysis = none ∨ ∃ row, s.analysis = some row ∧
      (row.analyzedContent = none ∨ row.analyzedContent = some "" ∨
       ∃ c, row.analyzedContent = some c ∧ env.parseProfile c = none)) :
    readExistingProfile env true s = none := by
  unfold readExistingProfile
  rcases h with h | ⟨row, hrow, hc⟩
  · simp [h]
  · rcases hc with hc | hc | ⟨c, hc, hp⟩
    · simp [hrow, hc]
    · simp [hrow, hc]
    · by_cases hce : c = ""
      · simp [hrow, hc, hce]
      · simp [hrow, hc, hce, hp]

/-- C8: for a tenant with no prior record, or a record with no stored
profile (absent, empty or unparseable analyzedContent), a run of
analyzeWebsitePages with appendMode true is identical — same returned
outcome, same persisted profile, status and analyzed-pages rows — to the
same run with appendMode false: it falls back to summarize. -/
theorem analyzePages_append_fallback
    (env : Env) (pageUrls : List String) (s0 : Store)
    (hnone : s0.analysis = none ∨ ∃ row, s0.analysis = some row ∧
      (row.analyzedContent = none ∨ row.analyzedContent = some "" ∨
       ∃ c, row.analyzedContent = some c ∧ env.parseProfile c = none)) :
    analyzeWebsitePages env pageUrls true s0 =
      analyzeWebsitePages env pageUrls false s0 := by
  have hnone' : (updateStatus s0 "analyzing" none).analysis = none ∨
      ∃ row, (updateStatus s0 "analyzing" none).analysis = some row ∧
      (row.analyzedContent = none ∨ row.analyzedContent = some "" ∨
       ∃ c, row.analyzedContent = some c ∧ env.parseProfile c = none) := by
    rcases hnone with h | ⟨row, hrow, hc⟩
    · left
      simp [updateStatus, h]
    · right
      exact ⟨statusPatch row "analyzing" none,
        updateStatus_analysis_some s0 "analyzing" none row hrow, hc⟩
  have hex := readExistingProfile_none env _ hnone'
  unfold analyzeWebsitePages
  dsimp only
  rw [hex,
    (rfl : readExistingProfile env false (updateStatus s0 "analyzing" none) =
      none)]
  rfl

/-- C8 witness: the fallback applied to the scenario store, whose pending
row has no analyzedContent. -/
theorem analyzePages_append_fallback_witness :
    analyzeWebsitePages scenarioEnv ["https://site.com"] true pendingStore =
      analyzeWebsitePages scenarioEnv ["https://site.com"] false pendingStore :=
  analyzePages_append_fallback scenarioEnv ["https://site.com"] pendingStore
    (Or.inr ⟨pendingRow, by decide, Or.inl (by decide)⟩)

/-- When every scrape fails, the concatenated content is empty. -/
theorem combinedPagesContent_all_failed (env : Env) :
    ∀ pageUrls : List String,
      (∀ u ∈ pageUrls, ∃ e, env.scrape u = .error e) →
      combinedPagesContent env pageUrls = "" := by
  intro pageUrls
  induction pageUrls with
  | nil => intro _; rfl
  | cons x xs ih =>
    intro h
    obtain ⟨e, he⟩ := h x (by simp)
    unfold combinedPagesContent
    rw [List.foldl_cons]
    rw [he]
    exact ih (fun u hu => h u (by simp [hu]))

/-- Every analyzeWebsite run on an existing record ends with the record
at completed (exactly when the run succeeds) or at failed with the error
message recorded. -/
theorem analyzeWebsite_terminal (env : Env) (websiteUrl : String)
    (s0 : Store) (row : AnalysisRow) (hrow : s0.analysis = some row) :
    ∃ row', (analyzeWebsite env websiteUrl s0).2.analysis = some row' ∧
      (((analyzeWebsite env websiteUrl s0).1 = .ok () ∧
        row'.status = "completed" ∧ row'.errorMessage = none) ∨
       (∃ e, (analyzeWebsite env websiteUrl s0).1 = .error e ∧
        row'.status = "failed" ∧
        row'.errorMessage = some (errMessage e))) := by
  have hs1 := updateStatus_analysis_some s0 "analyzing" none row hrow
  unfold analyzeWebsite
  cases hsc : env.scrape websiteUrl with
  | error e =>
    dsimp only
    exact ⟨_, updateStatus_analysis_some _ _ _ _ hs1,
      Or.inr ⟨e, rfl, rfl, rfl⟩⟩
  | ok homepageContent =>
    dsimp only
    cases hf : env.fetchHtml websiteUrl with
    | error e =>
      dsimp only
      exact ⟨_, updateStatus_analysis_some _ _ _ _ hs1,
        Or.inr ⟨e, rfl, rfl, rfl⟩⟩
    | ok homepageHtml =>
      dsimp only
      cases hfind : findImportantPages env.parseAbs env.resolveRel websiteUrl
          (env.anchors homepageHtml) with
      | none =>
        dsimp only
        exact ⟨_, updateStatus_analysis_some _ _ _ _ hs1,
          Or.inr ⟨.invalidUrl, rfl, rfl, rfl⟩⟩
      | some additionalPages =>
        dsimp only
        cases hsum : env.summarize
            (combinedSiteContent env homepageContent additionalPages) with
        | error e =>
          dsimp only
          exact ⟨_, updateStatus_analysis_some _ _ _ _ hs1,
            Or.inr ⟨e, rfl, rfl, rfl⟩⟩
        | ok profile =>
          dsimp only
          obtain ⟨r1, hr1, -, -, -⟩ :=
            upsertAnalysis_analysis (updateStatus s0 "analyzing" none)
              websiteUrl "completed" (some (env.printProfile profile))
          have hfa : ((dedupKeepFirst ((websiteUrl :: additionalPages).map
              normalizeUrl)).foldl appendPage
              (upsertAnalysis (updateStatus s0 "analyzing" none) websiteUrl
                "completed" (some (env.printProfile profile)))).analysis =
              some r1 := by
            rw [foldl_appendPage_analysis, hr1]
          exact ⟨_, updateStatus_analysis_some _ _ _ _ hfa,
            Or.inl ⟨rfl, rfl, rfl⟩⟩

/-- Every analyzeWebsitePages run on an existing record ends with the
record at completed (exactly when the run succeeds) or at failed with the
error message recorded. -/
theorem analyzeWebsitePages_terminal (env : Env) (pageUrls : List String)
    (appendMode : Bool) (s0 : Store) (row : AnalysisRow)
    (hrow : s0.analysis = some row) :
    ∃ row',
      (analyzeWebsitePages env pageUrls appendMode s0).2.analysis =
        some row' ∧
      (((analyzeWebsitePages env pageUrls appendMode s0).1 = .ok () ∧
        row'.status = "completed" ∧ row'.errorMessage = none) ∨
       (∃ e, (analyzeWebsitePages env pageUrls appendMode s0).1 = .error e ∧
        row'.status = "failed" ∧
        row'.errorMessage = some (errMessage e))) := by
  have hs1 := updateStatus_analysis_some s0 "analyzing" none row hrow
  unfold analyzeWebsitePages
  dsimp only
  by_cases hb : isBlank (combinedPagesContent env pageUrls) = true
  · rw [if_pos hb]
    exact ⟨_, updateStatus_analysis_some _ _ _ _ hs1,
      Or.inr ⟨.scrapeFailed, rfl, rfl, rfl⟩⟩
  · rw [if_neg hb]
    cases hres : synthesisResult env appendMode
        (readExistingProfile env appendMode (updateStatus s0 "analyzing" none))
        (combinedPagesContent env pageUrls) with
    | error e =>
      dsimp only
      exact ⟨_, updateStatus_analysis_some _ _ _ _ hs1,
        Or.inr ⟨e, rfl, rfl, rfl⟩⟩
    | ok profile =>
      dsimp only
      obtain ⟨r1, hr1, -, -, -⟩ :=
        upsertAnalysis_analysis (updateStatus s0 "analyzing" none)
          (pageUrls.headD "") "completed" (some (env.printProfile profile))
      have hfa : ((dedupKeepFirst (pageUrls.map normalizeUrl)).foldl
          appendPage
          (upsertAnalysis (updateStatus s0 "analyzing" none)
            (pageUrls.headD "") "completed"
            (some (env.printProfile profile)))).analysis = some r1 := by
        rw [foldl_appendPage_analysis, hr1]
      exact ⟨_, updateStatus_analysis_some _ _ _ _ hfa,
        Or.inl ⟨rfl, rfl, rfl⟩⟩

/-- C9: for every run of analyzeWebsite or analyzeWebsitePages over an
existing record, the record is never left at the analyzing status: the
final status is completed exactly when the run succeeds and failed with
a recorded error message on any unrecoverable error; and a pages run in
which every scrape fails (zero pages scraped) fails with ScrapeFailed
and records its message durably before the error is rethrown. -/
theorem analysis_status_never_stuck
    (env : Env) (websiteUrl : String) (pageUrls : List String)
    (appendMode : Bool) (s0 : Store) (row : AnalysisRow)
    (hrow : s0.analysis = some row) :
    (∃ row', (analyzeWebsite env websiteUrl s0).2.analysis = some row' ∧
      (((analyzeWebsite env websiteUrl s0).1 = .ok () ∧
        row'.status = "completed" ∧ row'.errorMessage = none) ∨
       (∃ e, (analyzeWebsite env websiteUrl s0).1 = .error e ∧
        row'.status = "failed" ∧
        row'.errorMessage = some (errMessage e)))) ∧
    (∃ row',
      (analyzeWebsitePages env pageUrls appendMode s0).2.analysis =
        some row' ∧
      (((analyzeWebsitePages env pageUrls appendMode s0).1 = .ok () ∧
        row'.status = "completed" ∧ row'.errorMessage = none) ∨
       (∃ e, (analyzeWebsitePages env pageUrls appendMode s0).1 = .error e ∧
        row'.status = "failed" ∧
        row'.errorMessage = some (errMessage e)))) ∧
    ((∀ u ∈ pageUrls, ∃ e, env.scrape u = .error e) →
      (analyzeWebsitePages env pageUrls appendMode s0).1 =
        .error .scrapeFailed ∧
      ∃ row',
        (analyzeWebsitePages env pageUrls appendMode s0).2.analysis =
          some row' ∧ row'.status = "failed" ∧
        row'.errorMessage = some "Failed to scrape any pages") := by
  refine ⟨analyzeWebsite_terminal env websiteUrl s0 row hrow,
    analyzeWebsitePages_terminal env pageUrls appendMode s0 row hrow, ?_⟩
  intro hall
  have hc := combinedPagesContent_all_failed env pageUrls hall
  have hs1 := updateStatus_analysis_some s0 "analyzing" none row hrow
  unfold analyzeWebsitePages
  dsimp only
  rw [hc, if_pos (by decide : isBlank "" = true)]
  exact ⟨rfl, _, updateStatus_analysis_some _ _ _ _ hs1, rfl, rfl⟩

/-- C9 witness: the terminal-status facts applied to the concrete
scenario run. -/
theorem analysis_status_never_stuck_witness :
    ∃ row',
      (analyzeWebsite scenarioEnv "https://site.com" pendingStore).2.analysis =
        some row' ∧
      (((analyzeWebsite scenarioEnv "https://site.com" pendingStore).1 =
          .ok () ∧
        row'.status = "completed" ∧ row'.errorMessage = none) ∨
       (∃ e, (analyzeWebsite scenarioEnv "https://site.com"
          pendingStore).1 = .error e ∧
        row'.status = "failed" ∧
        row'.errorMessage = some (errMessage e))) :=
  (analysis_status_never_stuck scenarioEnv "https://site.com"
    ["https://site.com"] false pendingStore pendingRow (by decide)).1

/-! ## Concrete evaluation checks -/

example : isPrivateIP "10.0.0.1" = true := by decide
example : isPrivateIP "127.0.0.1" = true := by decide
example : isPrivateIP "172.16.5.5" = true := by decide
example : isPrivateIP "172.32.0.1" = false := by decide
example : isPrivateIP "192.168.1.1" = true := by decide
example : isPrivateIP "169.254.169.254" = true := by decide
example : isPrivateIP "192.0.2.7" = true := by decide
example : isPrivateIP "198.51.100.3" = true := by decide
example : isPrivateIP "203.0.113.9" = true := by decide
example : isPrivateIP "224.0.0.1" = true := by decide
example : isPrivateIP "255.255.255.255" = true := by decide
example : isPrivateIP "8.8.8.8" = false := by decide
example : isPrivateIP "93.184.216.34" = false := by decide
example : isPrivateIP "999.0.0.1" = true := by decide
example : isPrivateIP "1000.0.0.1" = false := by decide
example : isPrivateIP "::1" = true := by decide
example : isPrivateIP "::ffff:8.8.8.8" = true := by decide
example : isPrivateIP "fe80::1" = true := by decide
example : isPrivateIP "FD00::1" = true := by decide
example : isPrivateIP "2001:db8::1" = false := by decide
example : isPrivateIP "1.2.3" = false := by decide
example : isPrivateIP "1.2.3.4.5" = false := by decide
example : isPrivateIP "example.com" = false := by decide
example : parseHttpUrl "http://localhost/x" =
    some { protocol := "http:", hostname := "localhost" } := by decide
example : parseHttpUrl "https://not a url" = none := by decide
example : parseHttpUrl "https://ftp://example.com" =
    some { protocol := "https:", hostname := "ftp" } := by decide
example : parseHttpUrl "https://example.com" =
    some { protocol := "https:", hostname := "example.com" } := by decide
example : validateUrl noDns noDns "http://localhost/x" = .error .blockedHost := by decide
example : validateUrl noDns noDns "not a url" = .error .invalidUrl := by decide
example : validateUrl noDns noDns "ftp://example.com" = .error .unresolvableHost := by decide
example : validateUrl noDns noDns "http://169.254.169.254/latest" =
    .error .blockedHost := by decide
example : validateUrl noDns noDns "http://metadata.google.internal/c" =
    .error .blockedHost := by decide
example :
    validateUrl (fun _ => ["127.0.0.1"]) noDns "https://rebind.example.com/a" =
    .error .dnsRebindingBlocked := by decide
example :
    validateUrl (fun _ => ["93.184.216.34"]) noDns "https://example.com/" =
    .ok { protocol := "https:", hostname := "example.com" } := by decide
example :
    analyzeWebsite scenarioEnv "https://site.com" pendingStore =
      (.ok (), scenarioDoneStore) := by decide
example :
    analyzeWebsitePages scenarioEnv ["https://site.com"] true pendingStore =
      analyzeWebsitePages scenarioEnv ["https://site.com"] false pendingStore := by
  decide
example :
    (analyzeWebsitePages scenarioEnv ["https://site.com/about"] false
        pendingStore).1 = .error .scrapeFailed := by decide
example : fetchPageHtmlPhase redirectResp = .error .redirectRejected := by decide
example : scrapeFetchPhase redirectResp = .error .redirectRejected := by decide
